import Mathlib

/-!
# Verification of the fpl-platform cache / historical-standings core

Shallow embedding of the cache-aside fetch-and-reconstruct subsystem of the
repository:

* `backend/app/services/cache.py` — `CacheService` (Redis-backed TTL cache);
* `backend/app/services/fpl_api.py` — `FPLAPIService._get` (cache-aside
  fetcher) and `FPLAPIService.get_historical_league_standings` (historical
  standings reconstruction).

Python dict/JSON payloads are modelled by `JsonValue`; the parts of the
payloads that the code destructures by key are modelled by typed structures
containing exactly the fields the code reads, with `Option` fields where the
code uses `dict.get` with a default.  The Redis backend is modelled as a
key-to-entry map together with a current time, so that TTL behaviour
(`setex` vs plain `set`) is observable.  `json.dumps` / `json.loads` are
Python standard-library functions outside the repository; the embedding takes
them as explicit function parameters `dumps` / `loads`, and theorems that
need their documented behaviour (round-tripping a JSON-serializable value,
producing a non-empty string) take that behaviour as an explicit hypothesis
at the value in question.
-/

/-- A JSON value as produced by `json.loads` (numbers restricted to integers;
none of the verified code paths depends on float payloads). -/
inductive JsonValue : Type where
  | null : JsonValue
  | bool (b : Bool) : JsonValue
  | num (n : Int) : JsonValue
  | str (s : String) : JsonValue
  | arr (elems : List JsonValue) : JsonValue
  | obj (fields : List (String × JsonValue)) : JsonValue

/-- Python truthiness of a JSON value: `None`, `False`, `0`, `""`, `[]` and
`\x7b\x7d` are falsy, everything else is truthy. -/
def JsonValue.truthy : JsonValue → Bool
  | .null => false
  | .bool b => b
  | .num n => n != 0
  | .str s => s != ""
  | .arr elems => !elems.isEmpty
  | .obj fields => !fields.isEmpty

/-- Python truthiness of an optional JSON value (`None` is falsy). -/
def truthyOptJson (o : Option JsonValue) : Bool :=
  (o.map JsonValue.truthy).getD false

/-- One stored Redis entry: the serialized string value and, when it was
written with `SETEX`, its absolute expiry time. -/
structure RedisEntry : Type where
  value : String
  expiresAt : Option Int

/-- The state of the Redis backend: the key-value store and the current
time (seconds), used to decide expiry. -/
structure RedisState : Type where
  now : Int
  store : String → Option RedisEntry

/-- Redis `GET`: returns the stored string unless the entry is absent or its
expiry time has been reached. -/
def redisGet (st : RedisState) (key : String) : Option String :=
  match st.store key with
  | none => none
  | some e =>
    match e.expiresAt with
    | none => some e.value
    | some t => if st.now < t then some e.value else none

/-- Redis `SET`: stores the string with no expiry, overwriting any previous
entry. -/
def redisSet (st : RedisState) (key : String) (v : String) : RedisState :=
  { st with store := fun k => if k = key then some ⟨v, none⟩ else st.store k }

/-- Redis `SETEX`: stores the string with expiry `now + ttl`.  Redis rejects a
non-positive ttl with an error, modelled as `none`. -/
def redisSetex (st : RedisState) (key : String) (ttl : Int) (v : String) :
    Option RedisState :=
  if 0 < ttl then
    some { st with
           store := fun k =>
             if k = key then some ⟨v, some (st.now + ttl)⟩ else st.store k }
  else
    none

/-- Embedding of `CacheService.get` (cache.py lines 32-44): reads the raw string from
Redis; `if cached_data:` tests the truthiness of that *string* (falsy only
when absent or empty), then `json.loads` it.  A parse failure raises, is
caught by the `except` clause and becomes `None`; `loads` returning `none`
models that. -/
def CacheService.get (loads : String → Option JsonValue) (st : RedisState)
    (key : String) : Option JsonValue :=
  match redisGet st key with
  | none => none
  | some s => if s != "" then loads s else none

/-- Truthiness of the `expire: int | None` argument of `CacheService.set`:
`None` and `0` are falsy, every other integer is truthy. -/
def truthyExpire (expire : Option Int) : Bool :=
  match expire with
  | none => false
  | some n => n != 0

/-- Embedding of `CacheService.set` (cache.py lines 46-63): serializes the value with
`json.dumps`, then `if expire:` uses `SETEX` else plain `SET`.  Returns the
possibly-updated state and the boolean result; a backend error (e.g. `SETEX`
with a non-positive ttl) is caught and reported as `false` with the state
unchanged. -/
def CacheService.set (dumps : JsonValue → String) (st : RedisState)
    (key : String) (value : JsonValue) (expire : Option Int) :
    RedisState × Bool :=
  let serialized := dumps value
  if truthyExpire expire then
    match redisSetex st key (expire.getD 0) serialized with
    | some st' => (st', true)
    | none => (st, false)
  else
    (redisSet st key serialized, true)

/-- Embedding of `FPLAPIService._get` (fpl_api.py lines 30-61): cache-aside fetch of one
endpoint.  `remote` models the HTTP GET combined with `raise_for_status` and
`response.json()`: `none` covers a non-2xx status, a network error or a body
parse failure, each of which the code catches and turns into `None` without
caching.  The third component counts the remote HTTP calls issued (0 on a
cache hit, 1 otherwise).  `cacheTTL` is `settings.FPL_CACHE_DURATION`
(config default 300). -/
def FPLAPIService.fetchGet (loads : String → Option JsonValue)
    (dumps : JsonValue → String) (remote : String → Option JsonValue)
    (cacheTTL : Int) (st : RedisState) (endpoint : String) :
    Option JsonValue × RedisState × Nat :=
  let cache_key := "fpl_api:" ++ endpoint
  let cached_data := CacheService.get loads st cache_key
  if truthyOptJson cached_data then
    (cached_data, st, 0)
  else
    match remote endpoint with
    | none => (none, st, 1)
    | some data =>
      let setRes := CacheService.set dumps st cache_key data (some cacheTTL)
      (some data, setRes.1, 1)

/-- One element of `current_standings["standings"]["results"]`; only the
fields that `get_historical_league_standings` reads are modelled (`entry`,
`entry_name`, `player_name`). -/
structure StandingsResultEntry : Type where
  entry : Int
  entry_name : String
  player_name : String
deriving DecidableEq

/-- The `"standings"` sub-object of the league response; `.get("results",
[])` in the code motivates the `Option`. -/
structure StandingsBlock : Type where
  results : Option (List StandingsResultEntry)

/-- The league-standings response returned by `get_league_standings`:
`league` and `new_entries` are opaque pass-through JSON, `standings` holds
the results list.  The `Option`s reflect the `.get(key, default)` accesses
in the code. -/
structure LeagueResponse : Type where
  league : Option JsonValue
  standings : Option StandingsBlock
  new_entries : Option JsonValue

/-- One per-gameweek record of a manager history (`history["current"][i]`).
The code reads `points`, `total_points` and `rank` via `.get(key, 0)`,
modelled by `Option Int` with default 0; `event` is carried along but never
read by the reconstruction. -/
structure GameweekRecord : Type where
  event : Option Int
  points : Option Int
  total_points : Option Int
  rank : Option Int
deriving DecidableEq

/-- A manager-history response; the code reads `history.get("current", [])`. -/
structure ManagerHistory : Type where
  current : Option (List GameweekRecord)
deriving DecidableEq

/-- Outcome of one `get_manager_history` task as observed after
`asyncio.gather(..., return_exceptions=True)`: either a captured exception,
or the `dict | None` the coroutine returned.  The code skips an entity when
`isinstance(history, Exception) or not history`, i.e. on `exc` and on
`ok none` (a present history dict is non-empty, hence truthy). -/
inductive HistoryFetch : Type where
  | exc : HistoryFetch
  | ok (h : Option ManagerHistory) : HistoryFetch
deriving DecidableEq

/-- One reconstructed standings entry, with exactly the keys the code puts
into `historical_results` (fpl_api.py lines 143-154). -/
structure HistoricalEntry : Type where
  id : Nat
  entry : Int
  entry_name : String
  player_name : String
  rank : Int
  last_rank : Int
  rank_sort : Int
  total : Int
  event_total : Int
  has_played : Bool
deriving DecidableEq

/-- The reconstructed `"standings"` block returned to the caller. -/
structure HistoricalStandingsBlock : Type where
  results : List HistoricalEntry
deriving DecidableEq

/-- The full return value of `get_historical_league_standings` (same shape
as the live standings response). -/
structure HistoricalResponse : Type where
  league : Option JsonValue
  standings : HistoricalStandingsBlock
  new_entries : JsonValue

/-- Python list indexing `l[i]`, including the negative-index convention;
`none` corresponds to an `IndexError`. -/
def pyIdx {α : Type} (l : List α) (i : Int) : Option α :=
  if 0 ≤ i then l[i.toNat]?
  else if 0 ≤ (l.length : Int) + i then l[((l.length : Int) + i).toNat]?
  else none

/-- The body of the per-entity loop of `get_historical_league_standings`
(fpl_api.py lines 118-154): given the enumerate index `i`, the entity id and
its gathered history outcome, produce the reconstructed entry, or `none`
when the entity is skipped (failed fetch, empty/short history, or id absent
from the current standings). -/
def buildEntry (gameweek : Nat)
    (standings_results : List StandingsResultEntry) (i : Nat)
    (team_id : Int) (history : HistoryFetch) : Option HistoricalEntry :=
  match history with
  | .exc => none
  | .ok none => none
  | .ok (some h) =>
    let current_gw_data := h.current.getD []
    if current_gw_data.isEmpty || current_gw_data.length < gameweek then none
    else
      match pyIdx current_gw_data ((gameweek : Int) - 1) with
      | none => none
      | some gw_data =>
        match standings_results.find? (fun e => e.entry == team_id) with
        | none => none
        | some original_entry =>
          some { id := i + 1
                 entry := team_id
                 entry_name := original_entry.entry_name
                 player_name := original_entry.player_name
                 rank := gw_data.rank.getD 0
                 last_rank := gw_data.rank.getD 0
                 rank_sort := gw_data.rank.getD 0
                 total := gw_data.total_points.getD 0
                 event_total := gw_data.points.getD 0
                 has_played := true }

/-- The unsorted `historical_results` list: one `get_manager_history` task
per `team_id` (in roster order), gathered, then the per-entity loop over
`enumerate(zip(team_ids, histories))`. -/
def buildHistoricalResults (fetchHistory : Int → HistoryFetch)
    (standings_results : List StandingsResultEntry) (gameweek : Nat) :
    List HistoricalEntry :=
  let team_ids := standings_results.map StandingsResultEntry.entry
  let histories := team_ids.map fetchHistory
  ((team_ids.zip histories).enum).filterMap
    (fun p => buildEntry gameweek standings_results p.1 p.2.1 p.2.2)

/-- The comparison used by `historical_results.sort(key=lambda x: x["rank"])`. -/
def rankLE (a b : HistoricalEntry) : Bool :=
  decide (a.rank ≤ b.rank)

/-- Embedding of `list.sort(key=lambda x: x["rank"])`: stable ascending sort by rank. -/
def sortByRank (l : List HistoricalEntry) : List HistoricalEntry :=
  l.mergeSort rankLE

/-- Embedding of `current_standings.get("standings", ...).get("results", [])`
(each `.get` default, an empty dict or list, yields `[]`). -/
def extractResults (resp : LeagueResponse) : List StandingsResultEntry :=
  (resp.standings.bind StandingsBlock.results).getD []

/-- Embedding of `FPLAPIService.get_historical_league_standings` (fpl_api.py lines
81-166), as a function of the two kinds of upstream data it consumes: the
current-standings response (`none` when `get_league_standings` failed) and
the per-entity history outcomes.  `gameweek` is the requested gameweek
(callers pass gameweeks ≥ 1; `pyIdx` keeps Python's indexing semantics
exactly even at 0). -/
def FPLAPIService.get_historical_league_standings
    (fetchHistory : Int → HistoryFetch)
    (current_standings : Option LeagueResponse) (gameweek : Nat) :
    Option HistoricalResponse :=
  match current_standings with
  | none => none
  | some resp =>
    let standings_results := extractResults resp
    if standings_results.isEmpty then none
    else
      some { league := resp.league
             standings :=
               { results :=
                   sortByRank
                     (buildHistoricalResults fetchHistory standings_results
                       gameweek) }
             new_entries := resp.new_entries.getD (JsonValue.obj []) }

/-! ## Helper lemmas about the reconstruction -/

theorem rankLE_trans (a b c : HistoricalEntry) :
    rankLE a b → rankLE b c → rankLE a c := by
  simp only [rankLE, decide_eq_true_eq]
  omega

theorem rankLE_total (a b : HistoricalEntry) : rankLE a b || rankLE b a := by
  simp only [rankLE]
  by_cases h : a.rank ≤ b.rank
  · simp [h]
  · simp [h]
    omega

theorem sortByRank_pairwise (l : List HistoricalEntry) :
    (sortByRank l).Pairwise (fun a b => rankLE a b) :=
  List.sorted_mergeSort rankLE_trans rankLE_total l

theorem mem_sortByRank {e : HistoricalEntry} {l : List HistoricalEntry} :
    e ∈ sortByRank l ↔ e ∈ l :=
  List.mem_mergeSort

theorem sortByRank_of_sorted {l : List HistoricalEntry}
    (h : l.Pairwise (fun a b => rankLE a b)) : sortByRank l = l :=
  List.mergeSort_of_sorted h

/-- Stability of the rank sort: the entries carrying any fixed rank value
appear in the sorted output in exactly the order they had in the input. -/
theorem sortByRank_filter_rank (l : List HistoricalEntry) (r : Int) :
    (sortByRank l).filter (fun e => e.rank == r) =
      l.filter (fun e => e.rank == r) := by
  have hsub : List.Sublist (l.filter (fun e => e.rank == r)) (sortByRank l) := by
    apply List.sublist_mergeSort rankLE_trans rankLE_total
    · apply List.pairwise_of_forall_mem_list
      intro a ha b hb
      have hra := (List.mem_filter.mp ha).2
      have hrb := (List.mem_filter.mp hb).2
      simp only [beq_iff_eq] at hra hrb
      simp [rankLE, hra, hrb]
    · exact List.filter_sublist l
  have hperm : List.Perm ((sortByRank l).filter (fun e => e.rank == r))
      (l.filter (fun e => e.rank == r)) :=
    (List.mergeSort_perm l rankLE).filter _
  have hself : (l.filter (fun e => e.rank == r)).filter
      (fun e => e.rank == r) = l.filter (fun e => e.rank == r) :=
    List.filter_eq_self.mpr (fun a ha => (List.mem_filter.mp ha).2)
  have hsub2 := hsub.filter (fun e => e.rank == r)
  rw [hself] at hsub2
  exact (hsub2.eq_of_length hperm.length_eq.symm).symm

/-- Zipping a list with its `map` under the fetch function and then
filtering over the enumeration is the same as enumerating the list itself. -/
theorem enumFrom_zip_map_filterMap {β : Type} (fetch : Int → HistoryFetch)
    (F : Nat → Int → HistoryFetch → Option β) :
    ∀ (l : List Int) (n : Nat),
      ((List.zipWith Prod.mk l (l.map fetch)).enumFrom n).filterMap
          (fun p => F p.1 p.2.1 p.2.2) =
        (l.enumFrom n).filterMap (fun p => F p.1 p.2 (fetch p.2))
  | [], _ => rfl
  | t :: ts, n => by
    have ih := enumFrom_zip_map_filterMap fetch F ts (n + 1)
    simp only [List.map_cons, List.zipWith_cons_cons, List.enumFrom,
      List.filterMap_cons]
    cases hF : F n t (fetch t) <;> simp only [hF] <;> rw [ih]

theorem buildHistoricalResults_eq (fetch : Int → HistoryFetch)
    (sr : List StandingsResultEntry) (g : Nat) :
    buildHistoricalResults fetch sr g =
      ((sr.map StandingsResultEntry.entry).enum).filterMap
        (fun p => buildEntry g sr p.1 p.2 (fetch p.2)) :=
  enumFrom_zip_map_filterMap fetch (buildEntry g sr)
    (sr.map StandingsResultEntry.entry) 0

theorem mem_buildHistoricalResults {fetch : Int → HistoryFetch}
    {sr : List StandingsResultEntry} {g : Nat} {e : HistoricalEntry} :
    e ∈ buildHistoricalResults fetch sr g ↔
      ∃ i tid, (sr.map StandingsResultEntry.entry)[i]? = some tid ∧
        buildEntry g sr i tid (fetch tid) = some e := by
  rw [buildHistoricalResults_eq]
  simp only [List.mem_filterMap, List.mem_enum_iff_getElem?]
  constructor
  · rintro ⟨⟨i, tid⟩, h1, h2⟩
    exact ⟨i, tid, h1, h2⟩
  · rintro ⟨i, tid, h1, h2⟩
    exact ⟨(i, tid), h1, h2⟩

/-- Inversion of the per-entity loop body: a produced entry comes from a
successful history fetch, a long-enough `current` list, the record at the
(1-based) `gameweek`-th position, and the entity's row in the current
standings; all output fields are determined by those. -/
theorem buildEntry_eq_some {g : Nat} {sr : List StandingsResultEntry}
    {i : Nat} {tid : Int} {hist : HistoryFetch} {e : HistoricalEntry}
    (h : buildEntry g sr i tid hist = some e) :
    ∃ mh gw oe, hist = HistoryFetch.ok (some mh) ∧
      mh.current.getD [] ≠ [] ∧
      g ≤ (mh.current.getD []).length ∧
      pyIdx (mh.current.getD []) ((g : Int) - 1) = some gw ∧
      sr.find? (fun x => x.entry == tid) = some oe ∧
      e = { id := i + 1
            entry := tid
            entry_name := oe.entry_name
            player_name := oe.player_name
            rank := gw.rank.getD 0
            last_rank := gw.rank.getD 0
            rank_sort := gw.rank.getD 0
            total := gw.total_points.getD 0
            event_total := gw.points.getD 0
            has_played := true } := by
  match hist with
  | .exc => simp [buildEntry] at h
  | .ok none => simp [buildEntry] at h
  | .ok (some mh) =>
    simp only [buildEntry] at h
    split at h
    · simp at h
    · next hcond =>
      simp only [Bool.or_eq_true, List.isEmpty_iff, decide_eq_true_eq,
        not_or] at hcond
      split at h
      · simp at h
      · next gw hgw =>
        split at h
        · simp at h
        · next oe hoe =>
          refine ⟨mh, gw, oe, rfl, hcond.1, Nat.le_of_not_lt hcond.2, hgw,
            hoe, ?_⟩
          exact (Option.some.injEq _ _ ▸ h).symm

theorem get_historical_eq_of_ne_nil {fetch : Int → HistoryFetch}
    {resp : LeagueResponse} {g : Nat} (h : extractResults resp ≠ []) :
    FPLAPIService.get_historical_league_standings fetch (some resp) g =
      some { league := resp.league
             standings :=
               { results :=
                   sortByRank
                     (buildHistoricalResults fetch (extractResults resp) g) }
             new_entries := resp.new_entries.getD (JsonValue.obj []) } := by
  have hne : (extractResults resp).isEmpty = false := by
    simp [List.isEmpty_eq_false, h]
  simp [FPLAPIService.get_historical_league_standings, hne]

theorem get_historical_none_of_nil {fetch : Int → HistoryFetch}
    {resp : LeagueResponse} {g : Nat} (h : extractResults resp = []) :
    FPLAPIService.get_historical_league_standings fetch (some resp) g =
      none := by
  have hne : (extractResults resp).isEmpty = true := by
    simp [List.isEmpty_iff, h]
  simp [FPLAPIService.get_historical_league_standings, hne]

theorem get_historical_eq_some {fetch : Int → HistoryFetch}
    {cs : Option LeagueResponse} {g : Nat} {snap : HistoricalResponse}
    (h : FPLAPIService.get_historical_league_standings fetch cs g =
      some snap) :
    ∃ resp, cs = some resp ∧ extractResults resp ≠ [] ∧
      snap.standings.results =
        sortByRank (buildHistoricalResults fetch (extractResults resp) g) := by
  match cs with
  | none =>
    exact absurd h (by simp [FPLAPIService.get_historical_league_standings])
  | some resp =>
    by_cases hres : extractResults resp = []
    · rw [get_historical_none_of_nil hres] at h
      cases h
    · rw [get_historical_eq_of_ne_nil hres] at h
      cases Option.some.inj h
      exact ⟨resp, rfl, hres, rfl⟩

/-- Every entry of a returned snapshot is a member of the unsorted
reconstruction list for the roster of the current-standings response. -/
theorem mem_snap_results {fetch : Int → HistoryFetch}
    {cs : Option LeagueResponse} {g : Nat} {snap : HistoricalResponse}
    {e : HistoricalEntry}
    (h : FPLAPIService.get_historical_league_standings fetch cs g = some snap)
    (he : e ∈ snap.standings.results) :
    ∃ resp, cs = some resp ∧
      e ∈ buildHistoricalResults fetch (extractResults resp) g := by
  obtain ⟨resp, hcs, -, hres⟩ := get_historical_eq_some h
  rw [hres] at he
  exact ⟨resp, hcs, mem_sortByRank.mp he⟩

/-! ## C1: the concrete two-entity scenario -/

/-- C1 scenario: current standings with entities 10 ("A") and 20 ("B"). -/
def c1Resp : LeagueResponse :=
  { league := none
    standings := some
      { results := some
          [ { entry := 10, entry_name := "A", player_name := "A" }
          , { entry := 20, entry_name := "B", player_name := "B" } ] }
    new_entries := none }

/-- C1 scenario: entity 10's history; `current[2]` is
`event 3, points 55, total_points 160, rank 1`. -/
def c1Hist10 : ManagerHistory :=
  { current := some
      [ { event := some 1, points := some 50, total_points := some 50,
          rank := some 2 }
      , { event := some 2, points := some 55, total_points := some 105,
          rank := some 2 }
      , { event := some 3, points := some 55, total_points := some 160,
          rank := some 1 } ] }

/-- C1 scenario: entity 20's history; `current[2]` is
`event 3, points 48, total_points 150, rank 2`. -/
def c1Hist20 : ManagerHistory :=
  { current := some
      [ { event := some 1, points := some 52, total_points := some 52,
          rank := some 1 }
      , { event := some 2, points := some 50, total_points := some 102,
          rank := some 1 }
      , { event := some 3, points := some 48, total_points := some 150,
          rank := some 2 } ] }

/-- C1 scenario: the per-entity history fetches. -/
def c1Fetch : Int → HistoryFetch := fun tid =>
  if tid = 10 then .ok (some c1Hist10)
  else if tid = 20 then .ok (some c1Hist20)
  else .exc

/-- C1: with current standings holding exactly entities 10 ("A") and 20
("B"), entity 10's history having `current[2] = (event 3, points 55,
total 160, rank 1)` and entity 20's having `current[2] = (event 3, points
48, total 150, rank 2)`, reconstructing gameweek 3 returns a snapshot whose
entries are exactly `(10, rank 1, total 160, event 55, played)` then
`(20, rank 2, total 150, event 48, played)`, sorted ascending by rank. -/
theorem C1_concrete_scenario :
    (FPLAPIService.get_historical_league_standings c1Fetch (some c1Resp)
        3).map
        (fun r => r.standings.results.map
          (fun e => (e.entry, e.rank, e.total, e.event_total, e.has_played)))
      = some [(10, 1, 160, 55, true), (20, 2, 150, 48, true)] := by
  rw [get_historical_eq_of_ne_nil (by decide)]
  have hb : buildHistoricalResults c1Fetch (extractResults c1Resp) 3 =
      [ { id := 1, entry := 10, entry_name := "A", player_name := "A",
          rank := 1, last_rank := 1, rank_sort := 1, total := 160,
          event_total := 55, has_played := true }
      , { id := 2, entry := 20, entry_name := "B", player_name := "B",
          rank := 2, last_rank := 2, rank_sort := 2, total := 150,
          event_total := 48, has_played := true } ] := by decide
  rw [Option.map_some', hb, sortByRank_of_sorted (by decide)]
  rfl

/-! ## Cache-side helpers and concrete instances -/

/-- Writing with `expire` equal to `None`, `0` or a positive ttl and then
reading the same key at the same instant returns the deserialized value,
provided the serializer round-trips the value and does not produce the empty
string (both true of `json.dumps`/`json.loads` on every JSON-serializable
value). -/
theorem set_then_get (loads : String → Option JsonValue)
    (dumps : JsonValue → String) (st : RedisState) (k : String)
    (v : JsonValue) (expire : Option Int)
    (hrt : loads (dumps v) = some v) (hne : dumps v ≠ "")
    (hexp : truthyExpire expire = false ∨ 0 < expire.getD 0) :
    CacheService.get loads (CacheService.set dumps st k v expire).1 k =
      some v := by
  rcases hexp with hfalse | hpos
  · simp only [CacheService.set, hfalse, Bool.false_eq_true, if_false]
    simp [CacheService.get, redisGet, redisSet, bne_iff_ne, hne, hrt]
  · by_cases htr : truthyExpire expire = true
    · simp only [CacheService.set, htr, if_true]
      rw [show redisSetex st k (expire.getD 0) (dumps v) =
          some { st with
                 store := fun key =>
                   if key = k then
                     some ⟨dumps v, some (st.now + expire.getD 0)⟩
                   else st.store key } from by simp [redisSetex, hpos]]
      have harrow : st.now < st.now + expire.getD 0 := by omega
      simp [CacheService.get, redisGet, harrow, bne_iff_ne, hne, hrt]
    · simp only [CacheService.set, htr, Bool.not_eq_true, if_neg,
        Bool.false_eq_true, if_false]
      simp [CacheService.get, redisGet, redisSet, bne_iff_ne, hne, hrt]

/-- The empty Redis backend at time 0. -/
def redisEmpty : RedisState :=
  { now := 0, store := fun _ => none }

/-- Python `json.dumps` restricted to the concrete payloads used in the witnesses
(it agrees with Python: `dumps(\x7b\x7d)` is the two-character string of
braces, `dumps(5)` is `"5"`, `dumps(False)` is `"false"`). -/
def demoDumps : JsonValue → String
  | .obj [] => "\x7b\x7d"
  | .num 5 => "5"
  | .bool false => "false"
  | _ => "null"

/-- Python `json.loads` restricted to the same concrete payloads. -/
def demoLoads : String → Option JsonValue
  | "\x7b\x7d" => some (.obj [])
  | "5" => some (.num 5)
  | "false" => some (.bool false)
  | "null" => some .null
  | _ => none

/-! ## C2: the two not-found failures -/

/-- C2 counterexample: the claim says the "league absent" and "standings
empty" failures are distinguishable typed outcomes.  In the code both paths
execute `return None`: at the concrete inputs below (an absent
current-standings response, and one whose results list is empty) the two
returned outcomes are the very same value `none`, so the caller cannot
distinguish them. -/
theorem C2_counterexample :
    FPLAPIService.get_historical_league_standings (fun _ => HistoryFetch.exc)
        none 3 =
      FPLAPIService.get_historical_league_standings
        (fun _ => HistoryFetch.exc)
        (some { league := none, standings := some { results := some [] },
                new_entries := none }) 3 ∧
    FPLAPIService.get_historical_league_standings (fun _ => HistoryFetch.exc)
        none 3 = none := by
  exact ⟨rfl, rfl⟩

/-- C2 (amended): when the current-standings fetch returns no data, and when
its entry list is empty, `get_historical_league_standings` returns the same
absent sentinel `none` in both cases — no snapshot is returned, and the two
failure causes are distinguished only in log output, not in the value seen
by the caller. -/
theorem C2_amended (fetch : Int → HistoryFetch) (g : Nat)
    (resp : LeagueResponse) (h : extractResults resp = []) :
    FPLAPIService.get_historical_league_standings fetch none g = none ∧
    FPLAPIService.get_historical_league_standings fetch (some resp) g =
      none :=
  ⟨rfl, get_historical_none_of_nil h⟩

theorem C2_amended_witness :
    extractResults
        { league := none, standings := some { results := some [] },
          new_entries := none } = [] ∧
    (FPLAPIService.get_historical_league_standings (fun _ => HistoryFetch.exc)
        none 3 = none ∧
      FPLAPIService.get_historical_league_standings
          (fun _ => HistoryFetch.exc)
          (some { league := none, standings := some { results := some [] },
                  new_entries := none }) 3 = none) :=
  ⟨rfl, C2_amended (fun _ => HistoryFetch.exc) 3 _ rfl⟩

/-! ## C7: cache round-trip -/

/-- C7: for every key `k` and JSON-serializable value `v`, `set(k, v)`
followed immediately by `get(k)` (before any TTL expiry; the `expire`
hypothesis admits the default `None`, `0`, and any positive ttl) returns a
value equal to `v`.  The serializer hypotheses are the documented behaviour
of `json.dumps`/`json.loads` at `v`. -/
theorem C7_cache_round_trip (loads : String → Option JsonValue)
    (dumps : JsonValue → String) (st : RedisState) (k : String)
    (v : JsonValue) (expire : Option Int)
    (hrt : loads (dumps v) = some v) (hne : dumps v ≠ "")
    (hexp : truthyExpire expire = false ∨ 0 < expire.getD 0) :
    CacheService.get loads (CacheService.set dumps st k v expire).1 k =
      some v :=
  set_then_get loads dumps st k v expire hrt hne hexp

theorem C7_cache_round_trip_witness :
    (demoLoads (demoDumps (JsonValue.num 5)) = some (JsonValue.num 5) ∧
      demoDumps (JsonValue.num 5) ≠ "" ∧
      (truthyExpire none = false ∨ 0 < (none : Option Int).getD 0)) ∧
    CacheService.get demoLoads
        (CacheService.set demoDumps redisEmpty "k" (JsonValue.num 5) none).1
        "k" = some (JsonValue.num 5) :=
  ⟨⟨rfl, by decide, Or.inl rfl⟩,
    C7_cache_round_trip demoLoads demoDumps redisEmpty "k" (JsonValue.num 5)
      none rfl (by decide) (Or.inl rfl)⟩

/-! ## C9: falsy cached payloads -/

/-- C9 counterexample: the claim says `CacheService.get` returns `None` for
a cached value deserializing to a falsy payload.  Storing the empty object
and reading it back returns the empty object, not `None`: the truthiness
test in `get` is applied to the serialized *string* (the two-character brace
string, which is non-empty, hence truthy), not to the parsed value. -/
theorem C9_counterexample :
    CacheService.get demoLoads
        (CacheService.set demoDumps redisEmpty "k" (JsonValue.obj []) none).1
        "k" = some (JsonValue.obj []) ∧
    (JsonValue.obj []).truthy = false :=
  ⟨rfl, rfl⟩

/-- C9 (amended): for a cached serialized value that deserializes to a falsy
JSON payload, `CacheService.get` *returns the stored value* (its truthiness
check is on the non-empty serialized string); the cache-aside fetcher
`_get`, however, applies the truthiness test to the deserialized value, so a
falsy payload is treated there as a cache miss and the remote API is
contacted (one remote call) on every invocation even though the value was
written to the cache. -/
theorem C9_amended (loads : String → Option JsonValue)
    (dumps : JsonValue → String) (remote : String → Option JsonValue)
    (ttl : Int) (st : RedisState) (ep : String) (v : JsonValue)
    (hstored : redisGet st ("fpl_api:" ++ ep) = some (dumps v))
    (hrt : loads (dumps v) = some v) (hne : dumps v ≠ "")
    (hfalsy : v.truthy = false) :
    CacheService.get loads st ("fpl_api:" ++ ep) = some v ∧
    (FPLAPIService.fetchGet loads dumps remote ttl st ep).2.2 = 1 := by
  have hget : CacheService.get loads st ("fpl_api:" ++ ep) = some v := by
    simp [CacheService.get, hstored, bne_iff_ne, hne, hrt]
  refine ⟨hget, ?_⟩
  have hmiss : truthyOptJson
      (CacheService.get loads st ("fpl_api:" ++ ep)) = false := by
    simp [hget, truthyOptJson, hfalsy]
  match hrem : remote ep with
  | none => simp [FPLAPIService.fetchGet, hmiss, hrem]
  | some d => simp [FPLAPIService.fetchGet, hmiss, hrem]

theorem C9_amended_witness :
    (redisGet
        (CacheService.set demoDumps redisEmpty "fpl_api:/e/"
          (JsonValue.obj []) none).1 ("fpl_api:" ++ "/e/") =
        some (demoDumps (JsonValue.obj [])) ∧
      demoLoads (demoDumps (JsonValue.obj [])) = some (JsonValue.obj []) ∧
      demoDumps (JsonValue.obj []) ≠ "" ∧
      (JsonValue.obj []).truthy = false) ∧
    (CacheService.get demoLoads
        (CacheService.set demoDumps redisEmpty "fpl_api:/e/"
          (JsonValue.obj []) none).1 ("fpl_api:" ++ "/e/") =
        some (JsonValue.obj []) ∧
      (FPLAPIService.fetchGet demoLoads demoDumps (fun _ => none) 300
          (CacheService.set demoDumps redisEmpty "fpl_api:/e/"
            (JsonValue.obj []) none).1 "/e/").2.2 = 1) :=
  ⟨⟨rfl, rfl, by decide, rfl⟩,
    C9_amended demoLoads demoDumps (fun _ => none) 300
      (CacheService.set demoDumps redisEmpty "fpl_api:/e/"
        (JsonValue.obj []) none).1 "/e/" (JsonValue.obj []) rfl rfl
      (by decide) rfl⟩

/-! ## C10: expire equal to zero -/

/-- C10: `CacheService.set(k, v, expire=0)` takes the `else` branch of
`if expire:` exactly like an omitted ttl — the two calls are the same
function of the state — and the stored entry carries no expiry at all
(rather than expiring immediately or after zero seconds). -/
theorem C10_zero_expire_means_no_expiry (dumps : JsonValue → String)
    (st : RedisState) (k : String) (v : JsonValue) :
    CacheService.set dumps st k v (some 0) =
      CacheService.set dumps st k v none ∧
    (CacheService.set dumps st k v (some 0)).1.store k =
      some { value := dumps v, expiresAt := none } := by
  refine ⟨rfl, ?_⟩
  simp [CacheService.set, truthyExpire, redisSet]

/-! ## C3: partial-failure tolerance -/

/-- C3: for any roster (non-empty current standings) and any combination of
per-entity history outcomes, the reconstruction returns a snapshot (never an
error), and every entry of that snapshot belongs to an entity whose history
fetch succeeded with data. -/
theorem C3_partial_failure_tolerance (fetch : Int → HistoryFetch)
    (resp : LeagueResponse) (g : Nat) (h : extractResults resp ≠ []) :
    ∃ snap,
      FPLAPIService.get_historical_league_standings fetch (some resp) g =
        some snap ∧
      ∀ e ∈ snap.standings.results,
        ∃ mh, fetch e.entry = HistoryFetch.ok (some mh) := by
  refine ⟨_, get_historical_eq_of_ne_nil h, ?_⟩
  intro e he
  have he' : e ∈ sortByRank
      (buildHistoricalResults fetch (extractResults resp) g) := he
  obtain ⟨i, tid, -, hbe⟩ :=
    mem_buildHistoricalResults.mp (mem_sortByRank.mp he')
  obtain ⟨mh, gw, oe, hf, -, -, -, -, he_eq⟩ := buildEntry_eq_some hbe
  refine ⟨mh, ?_⟩
  rw [he_eq]
  exact hf

/-- C3 scenario: entities 1 ("A"), 2 ("B"), 3 ("C"). -/
def c3Resp : LeagueResponse :=
  { league := none
    standings := some
      { results := some
          [ { entry := 1, entry_name := "A", player_name := "A" }
          , { entry := 2, entry_name := "B", player_name := "B" }
          , { entry := 3, entry_name := "C", player_name := "C" } ] }
    new_entries := none }

/-- C3 scenario: entity B's history fetch raises; A and C succeed with one
gameweek record each. -/
def c3Fetch : Int → HistoryFetch := fun tid =>
  if tid = 1 then
    .ok (some
      { current := some
          [ { event := some 1, points := some 60, total_points := some 60,
              rank := some 5 } ] })
  else if tid = 3 then
    .ok (some
      { current := some
          [ { event := some 1, points := some 40, total_points := some 40,
              rank := some 7 } ] })
  else .exc

theorem C3_partial_failure_tolerance_witness :
    extractResults c3Resp ≠ [] ∧
    (∃ snap,
      FPLAPIService.get_historical_league_standings c3Fetch (some c3Resp) 1 =
        some snap ∧
      ∀ e ∈ snap.standings.results,
        ∃ mh, c3Fetch e.entry = HistoryFetch.ok (some mh)) ∧
    (FPLAPIService.get_historical_league_standings c3Fetch (some c3Resp)
        1).map (fun r => r.standings.results.map HistoricalEntry.entry)
      = some [1, 3] := by
  refine ⟨by decide,
    C3_partial_failure_tolerance c3Fetch c3Resp 1 (by decide), ?_⟩
  rw [get_historical_eq_of_ne_nil (by decide)]
  have hb : buildHistoricalResults c3Fetch (extractResults c3Resp) 1 =
      [ { id := 1, entry := 1, entry_name := "A", player_name := "A",
          rank := 5, last_rank := 5, rank_sort := 5, total := 60,
          event_total := 60, has_played := true }
      , { id := 3, entry := 3, entry_name := "C", player_name := "C",
          rank := 7, last_rank := 7, rank_sort := 7, total := 40,
          event_total := 40, has_played := true } ] := by decide
  rw [Option.map_some', hb, sortByRank_of_sorted (by decide)]
  rfl

/-! ## C4: gameweek selection and the not-reached skip -/

theorem pyIdx_coe_sub_one {α : Type} (l : List α) (g : Nat) (hg : 1 ≤ g) :
    pyIdx l ((g : Int) - 1) = l[g - 1]? := by
  have h0 : (0 : Int) ≤ (g : Int) - 1 := by omega
  have ht : ((g : Int) - 1).toNat = g - 1 := by omega
  simp [pyIdx, h0, ht]

/-- C4: for a requested gameweek `g ≥ 1` and an entity whose history fetch
succeeded: if its history has fewer than `g` records the entity is excluded
from the snapshot; otherwise every snapshot entry for it is built from the
record at 0-based index `g - 1` of the history. -/
theorem C4_gameweek_selection (fetch : Int → HistoryFetch)
    (cs : Option LeagueResponse) (g : Nat) (snap : HistoricalResponse)
    (tid : Int) (mh : ManagerHistory) (hg : 1 ≤ g)
    (hsnap : FPLAPIService.get_historical_league_standings fetch cs g =
      some snap)
    (hfetch : fetch tid = HistoryFetch.ok (some mh)) :
    ((mh.current.getD []).length < g →
      ∀ e ∈ snap.standings.results, e.entry ≠ tid) ∧
    (g ≤ (mh.current.getD []).length →
      ∀ e ∈ snap.standings.results, e.entry = tid →
        ∃ gw, (mh.current.getD [])[g - 1]? = some gw ∧
          e.rank = gw.rank.getD 0 ∧
          e.total = gw.total_points.getD 0 ∧
          e.event_total = gw.points.getD 0) := by
  have key : ∀ e ∈ snap.standings.results, e.entry = tid →
      g ≤ (mh.current.getD []).length ∧
      ∃ gw, pyIdx (mh.current.getD []) ((g : Int) - 1) = some gw ∧
        e.rank = gw.rank.getD 0 ∧ e.total = gw.total_points.getD 0 ∧
        e.event_total = gw.points.getD 0 := by
    intro e he hetid
    obtain ⟨resp, -, hmem⟩ := mem_snap_results hsnap he
    obtain ⟨i, tid2, -, hbe⟩ := mem_buildHistoricalResults.mp hmem
    obtain ⟨mh2, gw, oe, hf2, -, hlen, hidx, -, he_eq⟩ :=
      buildEntry_eq_some hbe
    have htid2 : tid2 = tid := by
      rw [he_eq] at hetid
      exact hetid
    subst htid2
    rw [hfetch] at hf2
    have hmm : mh = mh2 := by
      injection hf2 with h1
      injection h1
    subst hmm
    exact ⟨hlen, gw, hidx, by rw [he_eq], by rw [he_eq], by rw [he_eq]⟩
  constructor
  · intro hlt e he hetid
    exact absurd (key e he hetid).1 (by omega)
  · intro hle e he hetid
    obtain ⟨-, gw, hidx, h1, h2, h3⟩ := key e he hetid
    refine ⟨gw, ?_, h1, h2, h3⟩
    rw [← pyIdx_coe_sub_one (mh.current.getD []) g hg]
    exact hidx

/-- C4/C8 scenario: entities 1 ("A") and 2 ("B"). -/
def c4Resp : LeagueResponse :=
  { league := none
    standings := some
      { results := some
          [ { entry := 1, entry_name := "A", player_name := "A" }
          , { entry := 2, entry_name := "B", player_name := "B" } ] }
    new_entries := none }

/-- C4/C8 scenario: entity 1's history has 5 gameweek records
(gameweeks 1..5). -/
def c4Hist1 : ManagerHistory :=
  { current := some
      [ { event := some 1, points := some 10, total_points := some 10,
          rank := some 9 }
      , { event := some 2, points := some 20, total_points := some 30,
          rank := some 8 }
      , { event := some 3, points := some 30, total_points := some 60,
          rank := some 4 }
      , { event := some 4, points := some 40, total_points := some 100,
          rank := some 3 }
      , { event := some 5, points := some 50, total_points := some 150,
          rank := some 2 } ] }

/-- C4/C8 scenario: entity 2's history has only 2 gameweek records. -/
def c4Hist2 : ManagerHistory :=
  { current := some
      [ { event := some 1, points := some 11, total_points := some 11,
          rank := some 6 }
      , { event := some 2, points := some 12, total_points := some 23,
          rank := some 5 } ] }

/-- C4/C8 scenario: both history fetches succeed. -/
def c4Fetch : Int → HistoryFetch := fun tid =>
  if tid = 1 then .ok (some c4Hist1)
  else if tid = 2 then .ok (some c4Hist2)
  else .exc

/-- C4/C8 scenario: the snapshot reconstructed at gameweek 3: entity 2 is
excluded (only 2 records), entity 1 uses `current[2]`. -/
def c4Snap : HistoricalResponse :=
  { league := none
    standings :=
      { results :=
          [ { id := 1, entry := 1, entry_name := "A", player_name := "A",
              rank := 4, last_rank := 4, rank_sort := 4, total := 60,
              event_total := 30, has_played := true } ] }
    new_entries := JsonValue.obj [] }

theorem c4_snap_eq :
    FPLAPIService.get_historical_league_standings c4Fetch (some c4Resp) 3 =
      some c4Snap := by
  rw [get_historical_eq_of_ne_nil (by decide)]
  have hb : buildHistoricalResults c4Fetch (extractResults c4Resp) 3 =
      c4Snap.standings.results := by decide
  rw [hb, sortByRank_of_sorted (by decide)]
  rfl

theorem C4_gameweek_selection_witness :
    (1 ≤ 3 ∧
      FPLAPIService.get_historical_league_standings c4Fetch (some c4Resp) 3 =
        some c4Snap ∧
      c4Fetch 1 = HistoryFetch.ok (some c4Hist1) ∧
      c4Fetch 2 = HistoryFetch.ok (some c4Hist2)) ∧
    (3 ≤ (c4Hist1.current.getD []).length →
      ∀ e ∈ c4Snap.standings.results, e.entry = 1 →
        ∃ gw, (c4Hist1.current.getD [])[3 - 1]? = some gw ∧
          e.rank = gw.rank.getD 0 ∧
          e.total = gw.total_points.getD 0 ∧
          e.event_total = gw.points.getD 0) ∧
    ((c4Hist2.current.getD []).length < 3 →
      ∀ e ∈ c4Snap.standings.results, e.entry ≠ 2) :=
  ⟨⟨by omega, c4_snap_eq, rfl, rfl⟩,
    (C4_gameweek_selection c4Fetch (some c4Resp) 3 c4Snap 1 c4Hist1
      (by omega) c4_snap_eq rfl).2,
    (C4_gameweek_selection c4Fetch (some c4Resp) 3 c4Snap 2 c4Hist2
      (by omega) c4_snap_eq rfl).1⟩

/-! ## C5: sort invariant and stability -/

/-- C5: every returned snapshot is sorted ascending by rank (adjacent
pairs), and the sort is stable: for every rank value, the entries carrying
it appear in the same relative order as in the unsorted reconstruction list,
which itself follows the original entity ordering of the current
standings. -/
theorem C5_sort_invariant_and_stability (fetch : Int → HistoryFetch)
    (cs : Option LeagueResponse) (g : Nat) (snap : HistoricalResponse)
    (hsnap : FPLAPIService.get_historical_league_standings fetch cs g =
      some snap) :
    (∀ i, (h : i + 1 < snap.standings.results.length) →
      (snap.standings.results[i]).rank ≤
        (snap.standings.results[i + 1]).rank) ∧
    (∀ resp, cs = some resp → ∀ r : Int,
      snap.standings.results.filter (fun e => e.rank == r) =
        (buildHistoricalResults fetch (extractResults resp) g).filter
          (fun e => e.rank == r)) := by
  obtain ⟨resp0, hcs0, -, hres⟩ := get_historical_eq_some hsnap
  constructor
  · intro i h
    have hp := sortByRank_pairwise
      (buildHistoricalResults fetch (extractResults resp0) g)
    rw [← hres] at hp
    have hadj := List.pairwise_iff_getElem.mp hp i (i + 1) (by omega) h
      (by omega)
    simpa [rankLE] using hadj
  · intro resp hcs r
    have hr0 : resp = resp0 := by
      rw [hcs] at hcs0
      exact Option.some.inj hcs0
    subst hr0
    rw [hres]
    exact sortByRank_filter_rank
      (buildHistoricalResults fetch (extractResults resp) g) r

/-- C5 scenario: entities 1 ("A", rank 3), 2 ("B", rank 5), 3 ("C", rank 5)
— a rank tie between B and C. -/
def c5Resp : LeagueResponse :=
  { league := none
    standings := some
      { results := some
          [ { entry := 1, entry_name := "A", player_name := "A" }
          , { entry := 2, entry_name := "B", player_name := "B" }
          , { entry := 3, entry_name := "C", player_name := "C" } ] }
    new_entries := none }

/-- C5 scenario: one-record histories with ranks 3, 5, 5. -/
def c5Fetch : Int → HistoryFetch := fun tid =>
  if tid = 1 then
    .ok (some
      { current := some
          [ { event := some 1, points := some 70, total_points := some 70,
              rank := some 3 } ] })
  else if tid = 2 then
    .ok (some
      { current := some
          [ { event := some 1, points := some 50, total_points := some 50,
              rank := some 5 } ] })
  else if tid = 3 then
    .ok (some
      { current := some
          [ { event := some 1, points := some 49, total_points := some 49,
              rank := some 5 } ] })
  else .exc

/-- C5 scenario: the reconstructed snapshot at gameweek 1. -/
def c5Snap : HistoricalResponse :=
  { league := none
    standings :=
      { results :=
          [ { id := 1, entry := 1, entry_name := "A", player_name := "A",
              rank := 3, last_rank := 3, rank_sort := 3, total := 70,
              event_total := 70, has_played := true }
          , { id := 2, entry := 2, entry_name := "B", player_name := "B",
              rank := 5, last_rank := 5, rank_sort := 5, total := 50,
              event_total := 50, has_played := true }
          , { id := 3, entry := 3, entry_name := "C", player_name := "C",
              rank := 5, last_rank := 5, rank_sort := 5, total := 49,
              event_total := 49, has_played := true } ] }
    new_entries := JsonValue.obj [] }

theorem c5_snap_eq :
    FPLAPIService.get_historical_league_standings c5Fetch (some c5Resp) 1 =
      some c5Snap := by
  rw [get_historical_eq_of_ne_nil (by decide)]
  have hb : buildHistoricalResults c5Fetch (extractResults c5Resp) 1 =
      c5Snap.standings.results := by decide
  rw [hb, sortByRank_of_sorted (by decide)]
  rfl

theorem C5_sort_invariant_and_stability_witness :
    (FPLAPIService.get_historical_league_standings c5Fetch (some c5Resp) 1 =
      some c5Snap) ∧
    ((∀ i, (h : i + 1 < c5Snap.standings.results.length) →
        (c5Snap.standings.results[i]).rank ≤
          (c5Snap.standings.results[i + 1]).rank) ∧
      (∀ resp, some c5Resp = some resp → ∀ r : Int,
        c5Snap.standings.results.filter (fun e => e.rank == r) =
          (buildHistoricalResults c5Fetch (extractResults resp) 1).filter
            (fun e => e.rank == r))) :=
  ⟨c5_snap_eq,
    C5_sort_invariant_and_stability c5Fetch (some c5Resp) 1 c5Snap
      c5_snap_eq⟩

/-! ## C8: rank is reused for lastRank and rankSort; hasPlayed is true -/

/-- C8: every entry of a reconstructed snapshot has `last_rank` and
`rank_sort` equal to `rank`, all three taken from the `rank` field of the
selected historical gameweek record of that entity's own history (the
current standings carry no rank into the reconstruction), and `has_played`
is `true` unconditionally. -/
theorem C8_rank_triplicated_has_played (fetch : Int → HistoryFetch)
    (cs : Option LeagueResponse) (g : Nat) (snap : HistoricalResponse)
    (hsnap : FPLAPIService.get_historical_league_standings fetch cs g =
      some snap) :
    ∀ e ∈ snap.standings.results,
      ∃ mh gw, fetch e.entry = HistoryFetch.ok (some mh) ∧
        pyIdx (mh.current.getD []) ((g : Int) - 1) = some gw ∧
        e.rank = gw.rank.getD 0 ∧ e.last_rank = gw.rank.getD 0 ∧
        e.rank_sort = gw.rank.getD 0 ∧ e.has_played = true := by
  intro e he
  obtain ⟨resp, -, hmem⟩ := mem_snap_results hsnap he
  obtain ⟨i, tid, -, hbe⟩ := mem_buildHistoricalResults.mp hmem
  obtain ⟨mh, gw, oe, hf, -, -, hidx, -, he_eq⟩ := buildEntry_eq_some hbe
  subst he_eq
  exact ⟨mh, gw, hf, hidx, rfl, rfl, rfl, rfl⟩

theorem C8_rank_triplicated_has_played_witness :
    (FPLAPIService.get_historical_league_standings c4Fetch (some c4Resp) 3 =
      some c4Snap) ∧
    (∀ e ∈ c4Snap.standings.results,
      ∃ mh gw, c4Fetch e.entry = HistoryFetch.ok (some mh) ∧
        pyIdx (mh.current.getD []) ((3 : Int) - 1) = some gw ∧
        e.rank = gw.rank.getD 0 ∧ e.last_rank = gw.rank.getD 0 ∧
        e.rank_sort = gw.rank.getD 0 ∧ e.has_played = true) :=
  ⟨c4_snap_eq,
    C8_rank_triplicated_has_played c4Fetch (some c4Resp) 3 c4Snap c4_snap_eq⟩

/-! ## C6: cache-aside idempotence -/

/-- C6: starting from a cache state in which the key for `ep` misses, if the
remote call succeeds with a truthy payload `d` (and the configured ttl is
non-negative, so the write-through populates the cache), then the first
`_get` issues exactly one remote call and returns `d`, and a second
sequential `_get` at the same instant (before any TTL expiry) is a pure
cache hit: it returns the cached payload, leaves the state unchanged and
issues zero remote calls — one remote HTTP call in total.  The serializer
hypotheses are the documented behaviour of `json.dumps`/`json.loads`
at `d`. -/
theorem C6_cache_aside_idempotence (loads : String → Option JsonValue)
    (dumps : JsonValue → String) (remote : String → Option JsonValue)
    (ttl : Int) (st : RedisState) (ep : String) (d : JsonValue)
    (hmiss : truthyOptJson
      (CacheService.get loads st ("fpl_api:" ++ ep)) = false)
    (hremote : remote ep = some d)
    (hrt : loads (dumps d) = some d) (hne : dumps d ≠ "")
    (htruthy : d.truthy = true) (httl : 0 ≤ ttl) :
    (FPLAPIService.fetchGet loads dumps remote ttl st ep).1 = some d ∧
    (FPLAPIService.fetchGet loads dumps remote ttl st ep).2.2 = 1 ∧
    FPLAPIService.fetchGet loads dumps remote ttl
        (FPLAPIService.fetchGet loads dumps remote ttl st ep).2.1 ep =
      (some d, (FPLAPIService.fetchGet loads dumps remote ttl st ep).2.1,
        0) := by
  have h1 : FPLAPIService.fetchGet loads dumps remote ttl st ep =
      (some d,
        (CacheService.set dumps st ("fpl_api:" ++ ep) d (some ttl)).1,
        1) := by
    simp [FPLAPIService.fetchGet, hmiss, hremote]
  have hexp : truthyExpire (some ttl) = false ∨
      0 < (some ttl : Option Int).getD 0 := by
    by_cases h0 : ttl = 0
    · exact Or.inl (by simp [truthyExpire, h0])
    · refine Or.inr ?_
      simp only [Option.getD_some]
      omega
  have hget2 : CacheService.get loads
      (CacheService.set dumps st ("fpl_api:" ++ ep) d (some ttl)).1
      ("fpl_api:" ++ ep) = some d :=
    set_then_get loads dumps st ("fpl_api:" ++ ep) d (some ttl) hrt hne hexp
  have h2 : FPLAPIService.fetchGet loads dumps remote ttl
      (CacheService.set dumps st ("fpl_api:" ++ ep) d (some ttl)).1 ep =
      (some d,
        (CacheService.set dumps st ("fpl_api:" ++ ep) d (some ttl)).1,
        0) := by
    simp [FPLAPIService.fetchGet, hget2, truthyOptJson, htruthy]
  rw [h1]
  exact ⟨rfl, rfl, h2⟩

theorem C6_cache_aside_idempotence_witness :
    (truthyOptJson
        (CacheService.get demoLoads redisEmpty ("fpl_api:" ++ "/x/")) =
          false ∧
      (fun _ : String => some (JsonValue.num 5)) "/x/" =
        some (JsonValue.num 5) ∧
      demoLoads (demoDumps (JsonValue.num 5)) = some (JsonValue.num 5) ∧
      demoDumps (JsonValue.num 5) ≠ "" ∧
      (JsonValue.num 5).truthy = true ∧
      (0 : Int) ≤ 300) ∧
    ((FPLAPIService.fetchGet demoLoads demoDumps
        (fun _ => some (JsonValue.num 5)) 300 redisEmpty "/x/").1 =
          some (JsonValue.num 5) ∧
      (FPLAPIService.fetchGet demoLoads demoDumps
        (fun _ => some (JsonValue.num 5)) 300 redisEmpty "/x/").2.2 = 1 ∧
      FPLAPIService.fetchGet demoLoads demoDumps
          (fun _ => some (JsonValue.num 5)) 300
          (FPLAPIService.fetchGet demoLoads demoDumps
            (fun _ => some (JsonValue.num 5)) 300 redisEmpty "/x/").2.1
          "/x/" =
        (some (JsonValue.num 5),
          (FPLAPIService.fetchGet demoLoads demoDumps
            (fun _ => some (JsonValue.num 5)) 300 redisEmpty "/x/").2.1,
          0)) :=
  ⟨⟨rfl, rfl, rfl, by decide, rfl, by decide⟩,
    C6_cache_aside_idempotence demoLoads demoDumps
      (fun _ => some (JsonValue.num 5)) 300 redisEmpty "/x/"
      (JsonValue.num 5) rfl rfl rfl (by decide) rfl (by decide)⟩
